import Mathlib

/-!
Verification of the dygsom fraud-scoring service against its
natural-language specification.

The definitions below are a shallow embedding of the Python source:
  * `src/services/fraud_service.py`  — scoring orchestrator
  * `src/ml/ml_service.py`           — Day-3 rule-based ML service
  * `src/ml/model_manager.py`        — model manager with rule fallback
  * `src/ml/features/*.py`           — feature extractors
  * `src/core/rate_limiter.py`       — sliding-window rate limiter
  * `src/core/cache.py`              — two-level cache
  * `src/middleware/*.py`            — auth and rate-limit middleware
  * `src/repositories/api_key_repository.py`

Monetary amounts and scores are modelled as rationals (the Python code
uses floats; every constant compared against is an exact decimal and no
float-rounding behaviour is load-bearing for the claims).  Time is
modelled as integer seconds; timestamps as (year, month, day, hour, ...).
-/

namespace Fraud

/-! ### Risk levels and recommendations (fraud_service.py constants) -/

inductive RiskLevel
  | LOW
  | MEDIUM
  | HIGH
  | CRITICAL
  deriving DecidableEq, Repr

inductive Recommendation
  | APPROVE
  | REVIEW
  | DECLINE
  deriving DecidableEq, Repr

/-- `config.py` `FRAUD_SCORE_LOW_THRESHOLD` (default 0.3). -/
def FRAUD_SCORE_LOW_THRESHOLD : ℚ := 3/10

/-- `config.py` `FRAUD_SCORE_MEDIUM_THRESHOLD` (default 0.5). -/
def FRAUD_SCORE_MEDIUM_THRESHOLD : ℚ := 5/10

/-- `config.py` `FRAUD_SCORE_HIGH_THRESHOLD` (default 0.8). -/
def FRAUD_SCORE_HIGH_THRESHOLD : ℚ := 8/10

/-- `FraudService._calculate_risk_level` (fraud_service.py lines 434-456). -/
def calculateRiskLevel (fraudScore : ℚ) : RiskLevel :=
  if fraudScore < FRAUD_SCORE_LOW_THRESHOLD then .LOW
  else if fraudScore < FRAUD_SCORE_MEDIUM_THRESHOLD then .MEDIUM
  else if fraudScore < FRAUD_SCORE_HIGH_THRESHOLD then .HIGH
  else .CRITICAL

/-- `FraudService._generate_recommendation` (fraud_service.py lines 458-484). -/
def generateRecommendation (fraudScore : ℚ) (riskLevel : RiskLevel) :
    Recommendation :=
  match riskLevel with
  | .LOW => .APPROVE
  | .MEDIUM => .REVIEW
  | .HIGH => if fraudScore < 7/10 then .REVIEW else .DECLINE
  | .CRITICAL => .DECLINE

/-- The decision table of spec §4.7, row by row, written from the spec's
words: `fraud_score < 0.30 ⇒ (LOW, APPROVE)`;
`0.30 ≤ fraud_score < 0.50 ⇒ (MEDIUM, REVIEW)`;
`0.50 ≤ fraud_score < 0.70 ⇒ (HIGH, REVIEW)`;
`0.70 ≤ fraud_score < 0.80 ⇒ (HIGH, DECLINE)`;
`fraud_score ≥ 0.80 ⇒ (CRITICAL, DECLINE)`. -/
def decisionTableRow (s : ℚ) (r : RiskLevel) (rec : Recommendation) : Prop :=
  (s < 30/100 ∧ r = .LOW ∧ rec = .APPROVE) ∨
  (30/100 ≤ s ∧ s < 50/100 ∧ r = .MEDIUM ∧ rec = .REVIEW) ∨
  (50/100 ≤ s ∧ s < 70/100 ∧ r = .HIGH ∧ rec = .REVIEW) ∨
  (70/100 ≤ s ∧ s < 80/100 ∧ r = .HIGH ∧ rec = .DECLINE) ∨
  (80/100 ≤ s ∧ r = .CRITICAL ∧ rec = .DECLINE)

instance (s : ℚ) (r : RiskLevel) (rec : Recommendation) :
    Decidable (decisionTableRow s r rec) := by
  unfold decisionTableRow; infer_instance

/-- Helper: for every score the code's (risk level, recommendation) pair is
exactly the §4.7 table row. -/
lemma decisionTable_of_riskLevel (s : ℚ) :
    decisionTableRow s (calculateRiskLevel s)
      (generateRecommendation s (calculateRiskLevel s)) := by
  unfold decisionTableRow calculateRiskLevel generateRecommendation
  unfold FRAUD_SCORE_LOW_THRESHOLD FRAUD_SCORE_MEDIUM_THRESHOLD
    FRAUD_SCORE_HIGH_THRESHOLD
  by_cases h1 : s < 3/10
  · simp only [h1, if_true]
    left; exact ⟨by linarith, by trivial, by trivial⟩
  · by_cases h2 : s < 5/10
    · simp only [h1, h2, if_true, if_false]
      right; left; exact ⟨by linarith, by linarith, by trivial, by trivial⟩
    · by_cases h3 : s < 8/10
      · simp only [h1, h2, h3, if_true, if_false]
        by_cases h4 : s < 7/10
        · simp only [h4, if_true]
          right; right; left; exact ⟨by linarith, by linarith, by trivial, by trivial⟩
        · simp only [h4, if_false]
          right; right; right; left
          exact ⟨by linarith, by linarith, by trivial, by trivial⟩
      · simp only [h1, h2, h3, if_false]
        right; right; right; right; exact ⟨by linarith, by trivial, by trivial⟩

/-! ### Python dict values used by the feature pipeline

The extractors build `dict[str, float|int|str]`.  Two entries hold values
whose exact numeric content no consumer ever reads (`amount_log`, a float
logarithm, and `email_domain`, Python's process-randomised string hash);
they are carried symbolically. -/

inductive FeatVal
  | num (q : ℚ)
  | str (s : String)
  | log1pOf (q : ℚ)
  | hashOf (s : String)
  deriving DecidableEq, Repr

abbrev FeatDict := List (String × FeatVal)

def dictFind (d : FeatDict) (k : String) : Option FeatVal :=
  match d with
  | [] => none
  | p :: rest => if p.1 = k then some p.2 else dictFind rest k

/-- `d.get(k, dflt)` for the numeric reads the services perform.  Every key
the source reads through `.get` holds a numeric value when present. -/
def dictGetNum (d : FeatDict) (k : String) (dflt : ℚ) : ℚ :=
  match dictFind d k with
  | some (.num q) => q
  | some _ => dflt
  | none => dflt

/-! ### Rounding (Python `round`, banker's rounding) -/

/-- Python's `round` to an integer: round-half-to-even. -/
def pyRound (q : ℚ) : ℤ :=
  if q - ⌊q⌋ = 1/2 then (if ⌊q⌋ % 2 = 0 then ⌊q⌋ else ⌊q⌋ + 1) else round q

/-- Python `round(q, 4)`. -/
def round4 (q : ℚ) : ℚ := (pyRound (q * 10000) : ℚ) / 10000

/-- Python `round(q, 2)`. -/
def round2 (q : ℚ) : ℚ := (pyRound (q * 100) : ℚ) / 100

lemma pyRound_intCast (k : ℤ) : pyRound (k : ℚ) = k := by
  unfold pyRound
  rw [Int.floor_intCast]
  simp only [sub_self]
  rw [if_neg (by norm_num), round_intCast]

lemma round4_eq_of_int (q : ℚ) (k : ℤ) (h : q * 10000 = (k : ℚ)) :
    round4 q = (k : ℚ) / 10000 := by
  unfold round4
  rw [h, pyRound_intCast]

/-! ### Calendar arithmetic (datetime semantics, proleptic Gregorian)

`TimeFeatureExtractor.extract` computes the last day of the month by
subtracting the first of the month from the first of the next month
(`time_features.py` lines 65-70).  `datetime` subtraction works on
ordinal day numbers, embedded here exactly as `date.toordinal`. -/

/-- Python `calendar`-style leap year test used by `datetime`. -/
def pythonLeap (y : ℕ) : Bool :=
  y % 4 == 0 && (y % 100 != 0 || y % 400 == 0)

/-- Number of leap years in `[1, y]` (`datetime`'s `_days_before_year`
ingredient). -/
def leapsBefore (y : ℕ) : ℕ := y / 4 - y / 100 + y / 400

/-- Days in the months of year `y` strictly before month `m`. -/
def daysBeforeMonth (y m : ℕ) : ℕ :=
  let leap : ℕ := if pythonLeap y then 1 else 0
  match m with
  | 1 => 0
  | 2 => 31
  | 3 => 59 + leap
  | 4 => 90 + leap
  | 5 => 120 + leap
  | 6 => 151 + leap
  | 7 => 181 + leap
  | 8 => 212 + leap
  | 9 => 243 + leap
  | 10 => 273 + leap
  | 11 => 304 + leap
  | 12 => 334 + leap
  | _ => 0

/-- `date(y, m, d).toordinal()`: day 1 is 0001-01-01. -/
def toOrdinal (y m d : ℕ) : ℕ :=
  365 * (y - 1) + leapsBefore (y - 1) + daysBeforeMonth y m + d

/-- `datetime.weekday()`: Monday = 0 ... Sunday = 6. -/
def weekday (y m d : ℕ) : ℕ := (toOrdinal y m d + 6) % 7

/-- The source's `last_day` (time_features.py lines 65-70): first of next
month minus first of this month, in days. -/
def lastDayOfMonth (y m : ℕ) : ℕ :=
  if m = 12 then toOrdinal (y + 1) 1 1 - toOrdinal y 12 1
  else toOrdinal y (m + 1) 1 - toOrdinal y m 1

/-- A parsed UTC timestamp (the fields the extractors read). -/
structure Timestamp where
  year : ℕ
  month : ℕ
  day : ℕ
  hour : ℕ
  deriving DecidableEq, Repr

/-- `TimeFeatureExtractor.extract` (time_features.py lines 33-92). -/
def timeFeatures (ts : Timestamp) : FeatDict :=
  let hour := ts.hour
  let dayOfWeek := weekday ts.year ts.month ts.day
  let dayOfMonth := ts.day
  let lastDay := lastDayOfMonth ts.year ts.month
  [("hour_of_day", .num hour),
   ("day_of_week", .num dayOfWeek),
   ("is_weekend", .num (if 5 ≤ dayOfWeek then 1 else 0)),
   ("is_night", .num (if 22 ≤ hour ∨ hour < 6 then 1 else 0)),
   ("is_business_hours", .num (if 9 ≤ hour ∧ hour < 18 then 1 else 0)),
   ("day_of_month", .num dayOfMonth),
   ("is_month_start", .num (if dayOfMonth ≤ 3 then 1 else 0)),
   ("is_month_end", .num (if (lastDay : ℤ) - 2 ≤ (dayOfMonth : ℤ) then 1 else 0))]

/-! ### Amount features (amount_features.py) -/

/-- Decimal places of `str(amount)` after `rstrip('0')`, for amounts that
are exact decimal fractions (the validated amounts carry at most two
decimal places).  Fuel-bounded: 64 exceeds any float's decimal length. -/
def decimalPlacesAux : ℕ → ℚ → ℕ
  | 0, _ => 0
  | fuel + 1, q => if q.den = 1 then 0 else decimalPlacesAux fuel (q * 10) + 1

def decimalPlaces (q : ℚ) : ℕ := decimalPlacesAux 64 q

/-- `amount % n == 0` for an integral float amount. -/
def amountDivisible (q : ℚ) (n : ℤ) : Bool := q.den = 1 && q.num % n == 0

def percentileThresholds : List ℚ :=
  [10, 25, 50, 100, 200, 500, 1000, 2000, 5000, 10000]

/-- The percentile loop of `AmountFeatureExtractor.extract`
(amount_features.py lines 78-83). -/
def amountPercentile (amount : ℚ) : ℕ :=
  let p := (List.range percentileThresholds.length).foldl
    (fun acc i =>
      if percentileThresholds.getD i 0 ≤ amount then (i + 1) * 10 else acc) 0
  min p 100

/-- `AmountFeatureExtractor.extract` (amount_features.py lines 36-104). -/
def amountFeatures (amountIn : ℚ) : FeatDict :=
  let amount := |amountIn|
  let dp := decimalPlaces amount
  let isRounded : ℚ :=
    if dp = 0 ∧ (amountDivisible amount 10 ∨ amountDivisible amount 100 ∨
        amountDivisible amount 1000) then 1 else 0
  [("amount", .num amount),
   ("amount_log", .log1pOf amount),
   ("amount_rounded", .num isRounded),
   ("amount_decimal_places", .num dp),
   ("is_high_value", .num (if 1000 < amount then 1 else 0)),
   ("is_very_high_value", .num (if 5000 < amount then 1 else 0)),
   ("amount_percentile", .num (amountPercentile amount))]

/-! ### Email features (email_features.py) -/

def DISPOSABLE_DOMAINS : List String :=
  ["tempmail.com", "guerrillamail.com", "10minutemail.com",
   "throwaway.email", "mailinator.com", "trashmail.com",
   "maildrop.cc", "yopmail.com", "temp-mail.org"]

def FREE_PROVIDERS : List String :=
  ["gmail.com", "yahoo.com", "hotmail.com", "outlook.com",
   "live.com", "aol.com", "icloud.com", "protonmail.com"]

/-- Python `str.lower()` for the ASCII range (validated emails are
ASCII). -/
def pyToLower (s : String) : String :=
  ⟨s.data.map (fun c =>
    if 65 ≤ c.toNat ∧ c.toNat ≤ 90 then Char.ofNat (c.toNat + 32) else c)⟩

/-- Python `str.strip()`: drop leading and trailing whitespace. -/
def pyStrip (s : String) : String :=
  ⟨((s.data.dropWhile Char.isWhitespace).reverse.dropWhile
      Char.isWhitespace).reverse⟩

/-- Split a character list at the first occurrence of `c`. -/
def breakAtChar (c : Char) : List Char → Option (List Char × List Char)
  | [] => none
  | x :: xs =>
    if x = c then some ([], xs)
    else (breakAtChar c xs).map (fun p => (x :: p.1, p.2))

/-- `email.split('@', 1)` with the source's fallback for missing `@`
(email_features.py lines 67-73). -/
def splitEmail (email : String) : String × String :=
  match breakAtChar '@' email.data with
  | none => (email, "unknown.com")
  | some (localPart, domain) => (⟨localPart⟩, ⟨domain⟩)

/-- `EmailFeatureExtractor.extract` (email_features.py lines 46-124). -/
def emailFeatures (emailRaw : String) : FeatDict :=
  let email := pyStrip (pyToLower emailRaw)
  let (localPart, domain) := splitEmail email
  let numbersInEmail := (localPart.data.filter Char.isDigit).length
  let isCorporate : ℚ :=
    if domain ∉ FREE_PROVIDERS ∧ domain ∉ DISPOSABLE_DOMAINS ∧
        domain.data.any (· = '.') ∧ 5 < domain.length then 1 else 0
  let ratio : ℚ :=
    if 0 < localPart.length then
      (numbersInEmail : ℚ) / (localPart.length : ℚ) else 0
  [("email_length", .num email.length),
   ("email_domain", .hashOf domain),
   ("is_disposable_email", .num (if domain ∈ DISPOSABLE_DOMAINS then 1 else 0)),
   ("is_gmail", .num (if domain = "gmail.com" then 1 else 0)),
   ("is_yahoo", .num (if domain = "yahoo.com" then 1 else 0)),
   ("is_corporate_email", .num isCorporate),
   ("email_has_numbers", .num (if 0 < numbersInEmail then 1 else 0)),
   ("email_numeric_ratio", .num (round4 ratio))]

/-! ### Feature engineering orchestrator (feature_engineering.py) -/

/-- The transaction fields the scoring pipeline reads. -/
structure Transaction where
  transaction_id : String
  amount : ℚ
  currency : String
  timestamp : Timestamp
  customerEmail : String
  customerIp : String
  paymentType : String
  merchantCategory : String
  deriving DecidableEq, Repr

/-- The velocity-feature dict built by
`FraudService._extract_velocity_features` (fraud_service.py lines 299-305). -/
structure VelocityFeatures where
  customer_tx_count_1h : ℕ
  customer_tx_count_24h : ℕ
  customer_amount_24h : ℚ
  ip_tx_count_1h : ℕ
  ip_tx_count_24h : ℕ
  deriving DecidableEq, Repr

def velocityDict (v : VelocityFeatures) : FeatDict :=
  [("customer_tx_count_1h", .num v.customer_tx_count_1h),
   ("customer_tx_count_24h", .num v.customer_tx_count_24h),
   ("customer_amount_24h", .num v.customer_amount_24h),
   ("ip_tx_count_1h", .num v.ip_tx_count_1h),
   ("ip_tx_count_24h", .num v.ip_tx_count_24h)]

/-- `FeatureEngineer.extract_all_features` (feature_engineering.py lines
45-109).  All produced keys are distinct, so Python's `{**a, **b}` merge
is concatenation. -/
def extractAllFeatures (txn : Transaction) (velocity : FeatDict) : FeatDict :=
  timeFeatures txn.timestamp ++ amountFeatures txn.amount ++
  emailFeatures txn.customerEmail ++
  (if velocity.isEmpty then []
   else velocity.map (fun p => ("velocity_" ++ p.1, p.2))) ++
  [("currency_PEN", .num (if txn.currency = "PEN" then 1 else 0)),
   ("currency_USD", .num (if txn.currency = "USD" then 1 else 0)),
   ("payment_credit_card", .num (if txn.paymentType = "credit_card" then 1 else 0)),
   ("payment_debit_card", .num (if txn.paymentType = "debit_card" then 1 else 0)),
   ("payment_digital_wallet", .num (if txn.paymentType = "digital_wallet" then 1 else 0)),
   ("merchant_retail", .num (if txn.merchantCategory = "retail" then 1 else 0)),
   ("merchant_ecommerce", .num (if txn.merchantCategory = "e-commerce" then 1 else 0)),
   ("merchant_services", .num (if txn.merchantCategory = "services" then 1 else 0))]

/-! ### MLService (ml_service.py) — the service actually wired into
`FraudService` -/

/-- `MLService._calculate_rule_based_score` (ml_service.py lines 107-156). -/
def calculateRuleBasedScore (features : FeatDict) : ℚ :=
  let amount := dictGetNum features "amount" 0
  let s1 : ℚ :=
    if 10000 < amount then 3/10
    else if 5000 < amount then 2/10
    else if 1000 < amount then 1/10 else 0
  let txLastHour := dictGetNum features "transactions_last_hour" 0
  let s2 : ℚ :=
    if 10 < txLastHour then 4/10
    else if 5 < txLastHour then 3/10
    else if 3 < txLastHour then 2/10 else 0
  let amountLastDay := dictGetNum features "amount_last_day" 0
  let s3 : ℚ :=
    if 50000 < amountLastDay then 3/10
    else if 20000 < amountLastDay then 2/10
    else if 10000 < amountLastDay then 1/10 else 0
  round4 (min 1 (max 0 (s1 + s2 + s3)))

/-- `MLService._get_risk_level` (ml_service.py lines 158-174). -/
def mlGetRiskLevel (fraudScore : ℚ) : String :=
  if fraudScore < 3/10 then "LOW"
  else if fraudScore < 5/10 then "MEDIUM"
  else if fraudScore < 8/10 then "HIGH"
  else "CRITICAL"

/-- `MLService._get_recommendation` (ml_service.py lines 176-190). -/
def mlGetRecommendation (riskLevel : String) : String :=
  if riskLevel = "LOW" then "APPROVE"
  else if riskLevel = "MEDIUM" then "REVIEW"
  else "DECLINE"

/-- `MLService.predict` (ml_service.py lines 38-105): the returned dict has
exactly the keys `fraud_score`, `risk_level`, `recommendation`,
`model_version` — and no `fraud_probability` key. -/
def mlServicePredict (features : FeatDict) : FeatDict :=
  let fraudScore := calculateRuleBasedScore features
  let riskLevel := mlGetRiskLevel fraudScore
  [("fraud_score", .num fraudScore),
   ("risk_level", .str riskLevel),
   ("recommendation", .str (mlGetRecommendation riskLevel)),
   ("model_version", .str "v1.0.0-baseline")]

/-! ### ModelManager (model_manager.py) -/

structure MMPrediction where
  fraud_probability : ℚ
  fraud_score : ℚ
  prediction : ℤ
  model_used : Bool
  confidence : String
  deriving DecidableEq, Repr

/-- `ModelManager._calculate_confidence` (model_manager.py lines 175-192). -/
def calculateConfidence (probability : ℚ) : String :=
  let distance := |probability - 1/2|
  if 4/10 ≤ distance then "HIGH"
  else if 2/10 ≤ distance then "MEDIUM"
  else "LOW"

/-- `ModelManager._fallback_prediction` (model_manager.py lines 194-249). -/
def fallbackPrediction (features : FeatDict) : MMPrediction :=
  let s1 : ℚ :=
    if dictGetNum features "is_very_high_value" 0 = 1 then 30
    else if dictGetNum features "is_high_value" 0 = 1 then 15 else 0
  let s2 : ℚ := if dictGetNum features "is_night" 0 = 1 then 10 else 0
  let s3 : ℚ := if dictGetNum features "is_weekend" 0 = 1 then 5 else 0
  let s4 : ℚ := if dictGetNum features "is_disposable_email" 0 = 1 then 25 else 0
  let s5 : ℚ := if dictGetNum features "amount_rounded" 0 = 1 then 10 else 0
  let velocityTx24h := dictGetNum features "velocity_customer_tx_count_24h" 0
  let s6 : ℚ := if 10 < velocityTx24h then 20
    else if 5 < velocityTx24h then 10 else 0
  let score := min (s1 + s2 + s3 + s4 + s5 + s6) 100
  let fraudProbability := score / 100
  { fraud_probability := round4 fraudProbability
    fraud_score := round2 score
    prediction := if 7/10 ≤ fraudProbability then 1 else 0
    model_used := false
    confidence := "LOW" }

/-- `ModelManager.predict` (model_manager.py lines 97-151).  `loadOk` is
whether the model file exists, loads and validates (`load_model`);
`inference = none` models `predict_proba`/`predict` raising. -/
def modelManagerPredict (loadOk : Bool) (inference : Option (ℚ × ℤ))
    (features : FeatDict) : MMPrediction :=
  if loadOk = false then fallbackPrediction features
  else
    match inference with
    | none => fallbackPrediction features
    | some (probability, prediction) =>
      { fraud_probability := round4 probability
        fraud_score := round2 (probability * 100)
        prediction := prediction
        model_used := true
        confidence := calculateConfidence probability }

/-! ### FraudService orchestration (fraud_service.py) -/

/-- `FraudService._calculate_fraud_score` (fraud_service.py lines 333-432).
`pipelineRaises = true` models any exception from feature extraction or
`MLService.predict` (the `except` branch returns `0.0`); otherwise the
score is `ml_result.get('fraud_probability', 0.0)`. -/
def calculateFraudScore (txn : Transaction) (velocity : VelocityFeatures)
    (pipelineRaises : Bool) : ℚ :=
  if pipelineRaises then 0
  else
    dictGetNum
      (mlServicePredict (extractAllFeatures txn (velocityDict velocity)))
      "fraud_probability" 0

/-- A persisted `transactions` row (the fields `_save_transaction` writes
that the claims mention). -/
structure TxRow where
  transaction_id : String
  amount : ℚ
  currency : String
  customer_email : String
  fraud_score : ℚ
  risk_level : RiskLevel
  decision : Recommendation
  deriving DecidableEq, Repr

/-- The scoring response body (fraud_service.py lines 197-210). -/
structure ScoreResponse where
  transaction_id : String
  fraud_score : ℚ
  risk_level : RiskLevel
  recommendation : Recommendation
  deriving DecidableEq, Repr

/-- Outcome of one `POST /fraud/score` request: either a 200 response
together with the final `transactions` table, or a failed final insert,
which the endpoint maps to a 500 (fraud.py lines 143-159). -/
inductive ScoreOutcome
  | ok (resp : ScoreResponse) (db : List TxRow)
  | dbError (db : List TxRow)
  deriving DecidableEq, Repr

/-- `FraudService.score_transaction` (fraud_service.py lines 80-224)
composed with `_save_transaction` (lines 486-543): compute the score,
derive risk level and recommendation, persist, then build the response.
`insertRaises = true` models `transaction_repo.create` raising, which
propagates out of `score_transaction`. -/
def scoreTransaction (txn : Transaction) (velocity : VelocityFeatures)
    (pipelineRaises : Bool) (insertRaises : Bool) (db : List TxRow) :
    ScoreOutcome :=
  let fraudScore := calculateFraudScore txn velocity pipelineRaises
  let riskLevel := calculateRiskLevel fraudScore
  let recommendation := generateRecommendation fraudScore riskLevel
  if insertRaises then .dbError db
  else
    let row : TxRow :=
      { transaction_id := txn.transaction_id
        amount := txn.amount
        currency := txn.currency
        customer_email := txn.customerEmail
        fraud_score := fraudScore
        risk_level := riskLevel
        decision := recommendation }
    .ok { transaction_id := txn.transaction_id
          fraud_score := fraudScore
          risk_level := riskLevel
          recommendation := recommendation }
       (db ++ [row])

/-- HTTP status the endpoint returns for an outcome (fraud.py lines
96-159). -/
def httpStatus : ScoreOutcome → ℕ
  | .ok _ _ => 200
  | .dbError _ => 500

/-! ### API keys and the auth middleware
(api_key_repository.py, auth_middleware.py) -/

structure ApiKeyRecord where
  id : String
  key_hash : String
  name : String
  rate_limit : ℕ
  is_active : Bool
  expires_at : Option ℤ
  deriving DecidableEq, Repr

/-- The `where` filter of `ApiKeyRepository.find_by_key_hash`
(api_key_repository.py lines 44-53): `is_active: True` and
`OR [expires_at: None, expires_at: {gt: now}]`. -/
def keyFilter (k : ApiKeyRecord) (keyHash : String) (now : ℤ) : Bool :=
  k.key_hash == keyHash && k.is_active &&
    (match k.expires_at with
     | none => true
     | some e => now < e)

/-- `ApiKeyRepository.find_by_key_hash` (`find_first` returns the first
matching record). -/
def findByKeyHash (keys : List ApiKeyRecord) (keyHash : String) (now : ℤ) :
    Option ApiKeyRecord :=
  keys.find? (fun k => keyFilter k keyHash now)

/-- `AuthMiddleware.dispatch` (auth_middleware.py lines 45-119) for a
non-excluded path, restricted to the state the claim mentions: the HTTP
status and the `transactions` table.  `handler` is the downstream chain
(rate limiter + endpoint); it receives the resolved key and the current
table and produces the response status and the new table. -/
def authDispatch (headerKey : Option String) (hashFn : String → String)
    (keys : List ApiKeyRecord) (now : ℤ)
    (handler : ApiKeyRecord → List TxRow → ℕ × List TxRow)
    (txdb : List TxRow) : ℕ × List TxRow :=
  match headerKey with
  | none => (401, txdb)
  | some apiKey =>
    match findByKeyHash keys (hashFn apiKey) now with
    | none => (401, txdb)
    | some keyData => handler keyData txdb

/-! ### Rate limiter (rate_limiter.py, rate_limit_middleware.py)

The Redis sorted set under `rate_limit:<key>` holds members `str(t)` with
score `t` for integer seconds `t` — a set of naturals.  One check:
`zremrangebyscore(0, now - window)`, `zcard`, then on success
`zadd {str(now): now}` (`check_rate_limit`, lines 60-112). -/

def rlStep (limit window : ℕ) (s : Finset ℕ) (t : ℕ) :
    (Bool × ℕ) × Finset ℕ :=
  let kept := s.filter (fun x => t < x + window)
  let currentCount := kept.card
  if limit ≤ currentCount then ((false, 0), kept)
  else ((true, limit - currentCount - 1), insert t kept)

/-- `RateLimiter.check_rate_limit` including its `except` branch (lines
114-121): any Redis error yields `(True, limit)` — fail open. -/
def checkRateLimit (limit window : ℕ) (kv : Except Unit (Finset ℕ))
    (t : ℕ) : (Bool × ℕ) × Except Unit (Finset ℕ) :=
  match kv with
  | .error e => ((true, limit), .error e)
  | .ok s =>
    let r := rlStep limit window s t
    (r.1, .ok r.2)

/-- A response as the rate-limit middleware sees it: status plus the two
`X-RateLimit-*` headers it may attach. -/
structure HttpResponse where
  status : ℕ
  rlLimitHeader : Option ℕ
  rlRemainingHeader : Option ℕ
  deriving DecidableEq, Repr

/-- `RateLimitMiddleware.dispatch` (rate_limit_middleware.py lines 46-152)
for a non-excluded path.  `mwRaises` models an exception inside the
middleware body (the outer `except`, lines 138-152: fail open, the request
proceeds).  `DEFAULT_RATE_LIMIT = 100`; `api_key_data.rate_limit or 100`
is Python truthiness, so a zero stored limit falls back to 100. -/
def rateLimitDispatch (apiKeyData : Option ApiKeyRecord) (mwRaises : Bool)
    (kv : Except Unit (Finset ℕ)) (t : ℕ) (handlerResp : HttpResponse) :
    HttpResponse :=
  match apiKeyData with
  | none => handlerResp
  | some keyData =>
    if mwRaises then handlerResp
    else
      let rateLimit := if keyData.rate_limit = 0 then 100 else keyData.rate_limit
      let checked := checkRateLimit rateLimit 60 kv t
      if checked.1.1 then
        { handlerResp with
          rlLimitHeader := some rateLimit
          rlRemainingHeader := some checked.1.2 }
      else
        { status := 429
          rlLimitHeader := some rateLimit
          rlRemainingHeader := some 0 }

/-- Run the sliding-window counter over a sequence of request times,
threading the sorted-set state. -/
def rlRun (limit window : ℕ) (s : Finset ℕ) : List ℕ → List (Bool × ℕ)
  | [] => []
  | t :: ts =>
    let r := rlStep limit window s t
    r.1 :: rlRun limit window r.2 ts

/-- The `X-RateLimit-Remaining` values attached to the successful
(allowed) responses. -/
def allowedRemainings (results : List (Bool × ℕ)) : List ℕ :=
  results.filterMap (fun r => if r.1 then some r.2 else none)

/-! ### Two-level cache (cache.py)

L1 is a Python dict (insertion-ordered assoc list, FIFO eviction of the
first key when full); L2 is Redis, a key-value map with per-entry expiry.
Values are stored in L2 via `json.dumps`/`json.loads`, an exact round
trip for the JSON-representable dicts the service caches; the embedding
therefore stores the value itself. -/

structure CacheState (V : Type) where
  l1 : List (String × V)
  l1Max : ℕ
  l2 : String → Option (V × ℕ)

/-- Python dict assignment: overwrite in place if present, else append. -/
def dictAssign {V : Type} (l : List (String × V)) (k : String) (v : V) :
    List (String × V) :=
  if l.any (fun p => p.1 == k) then
    l.map (fun p => if p.1 == k then (k, v) else p)
  else l ++ [(k, v)]

def l1Lookup {V : Type} (l : List (String × V)) (k : String) : Option V :=
  (l.find? (fun p => p.1 == k)).map (·.2)

/-- `CacheService._set_l1` (cache.py lines 226-239): evict the oldest
entry when at capacity, then assign. -/
def setL1 {V : Type} (st : CacheState V) (k : String) (v : V) :
    CacheState V :=
  let base := if st.l1Max ≤ st.l1.length then st.l1.drop 1 else st.l1
  { st with l1 := dictAssign base k v }

/-- `CacheService.set` (cache.py lines 123-162): write L1, then
`setex(key, ttl, value)` in L2. -/
def cacheSet {V : Type} (st : CacheState V) (k : String) (v : V)
    (ttl now : ℕ) : CacheState V :=
  { setL1 st k v with
    l2 := fun k' => if k' = k then some (v, now + ttl) else st.l2 k' }

/-- `CacheService.get` (cache.py lines 57-121): L1, then L2 (back-filling
L1 on an L2 hit), then miss.  Redis returns nothing once the entry's
expiry has passed. -/
def cacheGet {V : Type} (st : CacheState V) (k : String) (now : ℕ) :
    Option V × CacheState V :=
  match l1Lookup st.l1 k with
  | some v => (some v, st)
  | none =>
    match st.l2 k with
    | some (v, expiry) =>
      if now < expiry then (some v, setL1 st k v) else (none, st)
    | none => (none, st)

/-- A sequence of `set` operations: (key, value, ttl, time). -/
def applySets {V : Type} (st : CacheState V) :
    List (String × V × ℕ × ℕ) → CacheState V
  | [] => st
  | (k, v, ttl, now) :: rest => applySets (cacheSet st k v ttl now) rest

/-! ### Shared lemmas about the scoring pipeline -/

/-- The wired pipeline always yields a fraud score of `0`: on an exception
the `except` branch returns `0.0`, and on the success path
`ml_result.get('fraud_probability', 0.0)` defaults to `0.0` because
`MLService.predict`'s dict has no `fraud_probability` key. -/
lemma calculateFraudScore_eq_zero (txn : Transaction)
    (velocity : VelocityFeatures) (pipelineRaises : Bool) :
    calculateFraudScore txn velocity pipelineRaises = 0 := by
  cases pipelineRaises <;> rfl

lemma calculateRiskLevel_zero : calculateRiskLevel 0 = .LOW := by
  unfold calculateRiskLevel FRAUD_SCORE_LOW_THRESHOLD
  rw [if_pos (by norm_num : (0:ℚ) < 3/10)]

/-- Every zero-score request succeeds (absent an insert failure) with the
LOW/APPROVE row appended. -/
lemma scoreTransaction_zero (txn : Transaction) (velocity : VelocityFeatures)
    (pipelineRaises : Bool) (db : List TxRow) :
    scoreTransaction txn velocity pipelineRaises false db =
      .ok { transaction_id := txn.transaction_id
            fraud_score := 0
            risk_level := .LOW
            recommendation := .APPROVE }
        (db ++ [{ transaction_id := txn.transaction_id
                  amount := txn.amount
                  currency := txn.currency
                  customer_email := txn.customerEmail
                  fraud_score := 0
                  risk_level := .LOW
                  decision := .APPROVE }]) := by
  unfold scoreTransaction
  rw [calculateFraudScore_eq_zero]
  dsimp only
  rw [calculateRiskLevel_zero]
  rfl

lemma scoreTransaction_ok_inv {txn : Transaction} {velocity : VelocityFeatures}
    {pipelineRaises insertRaises : Bool} {db : List TxRow}
    {resp : ScoreResponse} {db' : List TxRow}
    (h : scoreTransaction txn velocity pipelineRaises insertRaises db =
      .ok resp db') :
    insertRaises = false ∧
    resp.fraud_score = calculateFraudScore txn velocity pipelineRaises ∧
    resp.risk_level = calculateRiskLevel resp.fraud_score ∧
    resp.recommendation = generateRecommendation resp.fraud_score resp.risk_level ∧
    resp.transaction_id = txn.transaction_id ∧
    db' = db ++ [{ transaction_id := txn.transaction_id
                   amount := txn.amount
                   currency := txn.currency
                   customer_email := txn.customerEmail
                   fraud_score := resp.fraud_score
                   risk_level := resp.risk_level
                   decision := resp.recommendation }] := by
  unfold scoreTransaction at h
  cases hi : insertRaises with
  | true => rw [hi] at h; simp at h
  | false =>
    rw [hi] at h
    simp only [if_false, Bool.false_eq_true, ScoreOutcome.ok.injEq] at h
    obtain ⟨hresp, hdb⟩ := h
    subst hresp
    refine ⟨rfl, rfl, rfl, rfl, rfl, ?_⟩
    rw [← hdb]

/-- C1: for every scored request the returned and persisted fraud score is
in [0,1] and the triple (fraud_score, risk_level, recommendation) is
exactly one row of the §4.7 decision table; the persisted row carries the
same triple. -/
theorem scored_request_in_decision_table (txn : Transaction)
    (velocity : VelocityFeatures) (pipelineRaises insertRaises : Bool)
    (db : List TxRow) (resp : ScoreResponse) (db' : List TxRow)
    (h : scoreTransaction txn velocity pipelineRaises insertRaises db =
      .ok resp db') :
    (0 ≤ resp.fraud_score ∧ resp.fraud_score ≤ 1 ∧
      decisionTableRow resp.fraud_score resp.risk_level resp.recommendation) ∧
    ∃ row, db' = db ++ [row] ∧
      row.fraud_score = resp.fraud_score ∧
      row.risk_level = resp.risk_level ∧
      row.decision = resp.recommendation ∧
      0 ≤ row.fraud_score ∧ row.fraud_score ≤ 1 ∧
      decisionTableRow row.fraud_score row.risk_level row.decision := by
  obtain ⟨-, hs, hr, hrec, -, hdb⟩ := scoreTransaction_ok_inv h
  have hz : resp.fraud_score = 0 := by
    rw [hs, calculateFraudScore_eq_zero]
  have htable : decisionTableRow resp.fraud_score resp.risk_level
      resp.recommendation := by
    rw [hr] at hrec ⊢
    rw [hrec]
    exact decisionTable_of_riskLevel resp.fraud_score
  refine ⟨⟨by rw [hz], by rw [hz]; norm_num, htable⟩,
    ⟨_, hdb, rfl, rfl, rfl, by rw [hz], by rw [hz]; norm_num, htable⟩⟩

/-- Sample request used to instantiate hypotheses of the proved claims. -/
def sampleTimestamp : Timestamp := ⟨2025, 1, 15, 12⟩

def sampleTxn : Transaction :=
  { transaction_id := "txn_1"
    amount := 301/2
    currency := "PEN"
    timestamp := sampleTimestamp
    customerEmail := "juan.perez@gmail.com"
    customerIp := "181.67.45.123"
    paymentType := "credit_card"
    merchantCategory := "retail" }

def sampleVelocity : VelocityFeatures := ⟨0, 0, 0, 0, 0⟩

def sampleResp : ScoreResponse := ⟨"txn_1", 0, .LOW, .APPROVE⟩

def sampleRow : TxRow :=
  ⟨"txn_1", 301/2, "PEN", "juan.perez@gmail.com", 0, .LOW, .APPROVE⟩

/-- Witness for C1 at a concrete request. -/
theorem scored_request_in_decision_table_witness :
    (0 ≤ sampleResp.fraud_score ∧ sampleResp.fraud_score ≤ 1 ∧
      decisionTableRow sampleResp.fraud_score sampleResp.risk_level
        sampleResp.recommendation) ∧
    ∃ row, [sampleRow] = [] ++ [row] ∧
      row.fraud_score = sampleResp.fraud_score ∧
      row.risk_level = sampleResp.risk_level ∧
      row.decision = sampleResp.recommendation ∧
      0 ≤ row.fraud_score ∧ row.fraud_score ≤ 1 ∧
      decisionTableRow row.fraud_score row.risk_level row.decision :=
  scored_request_in_decision_table sampleTxn sampleVelocity false false []
    sampleResp [sampleRow]
    (scoreTransaction_zero sampleTxn sampleVelocity false [])

/-- C3: a 200 response implies the final `transactions` insert completed
with the response's triple, and a raising insert yields a 500 with no 200
response. -/
theorem ok_response_iff_row_persisted (txn : Transaction)
    (velocity : VelocityFeatures) (pipelineRaises : Bool) (db : List TxRow) :
    (∀ resp db',
      scoreTransaction txn velocity pipelineRaises false db = .ok resp db' →
      ∃ row, db' = db ++ [row] ∧
        row.transaction_id = txn.transaction_id ∧
        row.fraud_score = resp.fraud_score ∧
        row.risk_level = resp.risk_level ∧
        row.decision = resp.recommendation) ∧
    (httpStatus (scoreTransaction txn velocity pipelineRaises true db) = 500 ∧
      ∀ resp db',
        scoreTransaction txn velocity pipelineRaises true db ≠ .ok resp db') := by
  refine ⟨?_, by unfold scoreTransaction httpStatus; simp, ?_⟩
  · intro resp db' h
    obtain ⟨-, -, -, -, -, hdb⟩ := scoreTransaction_ok_inv h
    exact ⟨_, hdb, rfl, rfl, rfl, rfl⟩
  · intro resp db' h
    exact absurd (scoreTransaction_ok_inv h).1 (by simp)

/-- Witness for C3 at a concrete request. -/
theorem ok_response_iff_row_persisted_witness :
    ∃ row, [sampleRow] = [] ++ [row] ∧
      row.transaction_id = sampleTxn.transaction_id ∧
      row.fraud_score = sampleResp.fraud_score ∧
      row.risk_level = sampleResp.risk_level ∧
      row.decision = sampleResp.recommendation :=
  (ok_response_iff_row_persisted sampleTxn sampleVelocity false []).1
    sampleResp [sampleRow]
    (scoreTransaction_zero sampleTxn sampleVelocity false [])

/-- C10: when feature extraction or the ML prediction raises, the request
still completes: fraud score 0.0, risk level LOW, recommendation APPROVE,
and the transaction is persisted with those values. -/
theorem pipeline_error_scores_zero (txn : Transaction)
    (velocity : VelocityFeatures) (db : List TxRow) :
    scoreTransaction txn velocity true false db =
      .ok { transaction_id := txn.transaction_id
            fraud_score := 0
            risk_level := .LOW
            recommendation := .APPROVE }
        (db ++ [{ transaction_id := txn.transaction_id
                  amount := txn.amount
                  currency := txn.currency
                  customer_email := txn.customerEmail
                  fraud_score := 0
                  risk_level := .LOW
                  decision := .APPROVE }]) :=
  scoreTransaction_zero txn velocity true db

/-! ### C2: the model-fallback scenario -/

def c2Transaction : Transaction :=
  { transaction_id := "txn_fallback"
    amount := 7500
    currency := "PEN"
    timestamp := ⟨2025, 1, 15, 12⟩
    customerEmail := "user@tempmail.com"
    customerIp := "181.67.45.123"
    paymentType := "credit_card"
    merchantCategory := "retail" }

def c2Velocity : VelocityFeatures := ⟨0, 0, 0, 0, 0⟩

/-- C2 (evaluation at the failing input): for a disposable-domain email
and amount 7500 with the model file absent, the wired pipeline returns
fraud score 0 and risk level LOW — `FraudService` never reaches
`ModelManager`, and `MLService.predict`'s result dict has no
`fraud_probability` key — whereas `ModelManager`'s rule-based fallback on
the very same features would yield a probability ≥ 0.55. -/
theorem fallback_scenario_scores_zero :
    scoreTransaction c2Transaction c2Velocity false false [] =
      .ok ⟨"txn_fallback", 0, .LOW, .APPROVE⟩
        [⟨"txn_fallback", 7500, "PEN", "user@tempmail.com", 0, .LOW,
          .APPROVE⟩] ∧
    55/100 ≤ (fallbackPrediction
      (extractAllFeatures c2Transaction (velocityDict c2Velocity))).fraud_probability := by
  constructor
  · exact scoreTransaction_zero c2Transaction c2Velocity false []
  · have habs : |(7500:ℚ)| = 7500 := by norm_num
    have h1 : dictGetNum
        (extractAllFeatures c2Transaction (velocityDict c2Velocity))
        "is_very_high_value" 0 = if (5000:ℚ) < |(7500:ℚ)| then 1 else 0 := rfl
    have h2 : dictGetNum
        (extractAllFeatures c2Transaction (velocityDict c2Velocity))
        "is_night" 0 = 0 := rfl
    have h3 : dictGetNum
        (extractAllFeatures c2Transaction (velocityDict c2Velocity))
        "is_weekend" 0 = 0 := rfl
    have h4 : dictGetNum
        (extractAllFeatures c2Transaction (velocityDict c2Velocity))
        "is_disposable_email" 0 = 1 := rfl
    have h5 : dictGetNum
        (extractAllFeatures c2Transaction (velocityDict c2Velocity))
        "amount_rounded" 0 =
        if decimalPlaces |(7500:ℚ)| = 0 ∧ (amountDivisible |(7500:ℚ)| 10 ∨
            amountDivisible |(7500:ℚ)| 100 ∨ amountDivisible |(7500:ℚ)| 1000)
        then 1 else 0 := rfl
    have h6 : dictGetNum
        (extractAllFeatures c2Transaction (velocityDict c2Velocity))
        "velocity_customer_tx_count_24h" 0 = ((0:ℕ):ℚ) := rfl
    rw [habs] at h1 h5
    have hdp : decimalPlaces (7500:ℚ) = 0 := by
      simp [decimalPlaces, decimalPlacesAux]
    have hdiv : amountDivisible (7500:ℚ) 10 = true := by
      simp [amountDivisible]
    rw [hdp, hdiv] at h5
    norm_num at h1 h5 h6
    simp only [fallbackPrediction]
    rw [h1, h2, h3, h4, h5, h6]
    norm_num
    rw [round4_eq_of_int _ 6500 (by norm_num [min_def])]
    norm_num

/-! ### C4: authentication -/

/-- C4: a key authenticates iff `is_active ∧ (expires_at is null ∨
expires_at > now)`; a missing key, an unknown key, and a key whose every
stored record is inactive or expired all yield 401 with the
`transactions` table untouched. -/
theorem key_authenticates_iff_active_unexpired
    (keys : List ApiKeyRecord) (keyHash : String) (now : ℤ)
    (hashFn : String → String)
    (handler : ApiKeyRecord → List TxRow → ℕ × List TxRow)
    (txdb : List TxRow) :
    ((findByKeyHash keys keyHash now).isSome ↔
      ∃ k ∈ keys, k.key_hash = keyHash ∧ k.is_active = true ∧
        (k.expires_at = none ∨ ∃ e, k.expires_at = some e ∧ now < e)) ∧
    authDispatch none hashFn keys now handler txdb = (401, txdb) ∧
    ∀ apiKey,
      (∀ k ∈ keys, k.key_hash = hashFn apiKey →
        k.is_active = false ∨ ∃ e, k.expires_at = some e ∧ e ≤ now) →
      authDispatch (some apiKey) hashFn keys now handler txdb = (401, txdb) := by
  refine ⟨?_, rfl, ?_⟩
  · unfold findByKeyHash
    rw [List.find?_isSome]
    constructor
    · rintro ⟨k, hk, hp⟩
      unfold keyFilter at hp
      simp only [Bool.and_eq_true, beq_iff_eq] at hp
      obtain ⟨⟨hh, ha⟩, he⟩ := hp
      refine ⟨k, hk, hh, ha, ?_⟩
      cases hex : k.expires_at with
      | none => exact .inl rfl
      | some e =>
        right
        refine ⟨e, rfl, ?_⟩
        rw [hex] at he
        simpa using he
    · rintro ⟨k, hk, hh, ha, he⟩
      refine ⟨k, hk, ?_⟩
      unfold keyFilter
      simp only [Bool.and_eq_true, beq_iff_eq]
      refine ⟨⟨hh, ha⟩, ?_⟩
      rcases he with h | ⟨e, hex, hlt⟩
      · rw [h]
      · rw [hex]
        simpa using hlt
  · intro apiKey hbad
    unfold authDispatch
    have hnone : findByKeyHash keys (hashFn apiKey) now = none := by
      unfold findByKeyHash
      rw [List.find?_eq_none]
      intro k hk hp
      unfold keyFilter at hp
      simp only [Bool.and_eq_true, beq_iff_eq] at hp
      obtain ⟨⟨hh, ha⟩, he⟩ := hp
      rcases hbad k hk hh with h | ⟨e, hex, hle⟩
      · rw [ha] at h
        exact Bool.true_eq_false.mp h
      · rw [hex] at he
        simp only [decide_eq_true_eq] at he
        omega
    dsimp only
    rw [hnone]

def sampleKeyInactive : ApiKeyRecord :=
  ⟨"key1", "hash1", "inactive key", 100, false, none⟩

def sampleKeyExpired : ApiKeyRecord :=
  ⟨"key2", "hash2", "expired key", 100, true, some 500⟩

def sampleHandler : ApiKeyRecord → List TxRow → ℕ × List TxRow :=
  fun _ db => (200, db)

/-- Witness for C4: a presented key resolving to an expired record is
rejected with 401 and no transaction row. -/
theorem key_authenticates_iff_active_unexpired_witness :
    authDispatch (some "tok") (fun _ => "hash2")
      [sampleKeyInactive, sampleKeyExpired] 1000 sampleHandler [] =
      (401, []) :=
  (key_authenticates_iff_active_unexpired
      [sampleKeyInactive, sampleKeyExpired] "hash2" 1000 (fun _ => "hash2")
      sampleHandler []).2.2 "tok"
    (by
      intro k hk hh
      simp only [List.mem_cons, List.not_mem_nil, or_false] at hk
      rcases hk with rfl | rfl
      · exact absurd hh (by decide)
      · exact .inr ⟨500, rfl, by decide⟩)

/-! ### C5: the rule-based fallback of the Model Manager -/

/-- The fallback score exactly as the claim words it: +30 for
very-high-value (else +15 for high-value), +10 for night, +5 for weekend,
+25 for disposable email, +10 for rounded amount, +20 for 24-hour
customer tx count > 10 (+10 if > 5), capped at 100. -/
def specFallbackScore (features : FeatDict) : ℚ :=
  min ((if dictGetNum features "is_very_high_value" 0 = 1 then (30:ℚ)
        else if dictGetNum features "is_high_value" 0 = 1 then 15 else 0) +
       (if dictGetNum features "is_night" 0 = 1 then (10:ℚ) else 0) +
       (if dictGetNum features "is_weekend" 0 = 1 then (5:ℚ) else 0) +
       (if dictGetNum features "is_disposable_email" 0 = 1 then (25:ℚ) else 0) +
       (if dictGetNum features "amount_rounded" 0 = 1 then (10:ℚ) else 0) +
       (if 10 < dictGetNum features "velocity_customer_tx_count_24h" 0 then (20:ℚ)
        else if 5 < dictGetNum features "velocity_customer_tx_count_24h" 0 then 10
        else 0)) 100

lemma round4_int_div100 (n : ℤ) : round4 ((n : ℚ) / 100) = (n : ℚ) / 100 := by
  rw [round4_eq_of_int _ (n * 100) (by push_cast; ring)]
  push_cast
  ring

lemma specFallbackScore_int (features : FeatDict) :
    ∃ n : ℤ, 0 ≤ n ∧ n ≤ 100 ∧ specFallbackScore features = (n : ℚ) := by
  unfold specFallbackScore
  have e1 : ∃ n : ℤ, 0 ≤ n ∧
      (if dictGetNum features "is_very_high_value" 0 = 1 then (30:ℚ)
       else if dictGetNum features "is_high_value" 0 = 1 then 15 else 0) =
        (n : ℚ) := by
    split_ifs
    exacts [⟨30, by norm_num⟩, ⟨15, by norm_num⟩, ⟨0, by norm_num⟩]
  have e2 : ∃ n : ℤ, 0 ≤ n ∧
      (if dictGetNum features "is_night" 0 = 1 then (10:ℚ) else 0) = (n : ℚ) := by
    split_ifs
    exacts [⟨10, by norm_num⟩, ⟨0, by norm_num⟩]
  have e3 : ∃ n : ℤ, 0 ≤ n ∧
      (if dictGetNum features "is_weekend" 0 = 1 then (5:ℚ) else 0) = (n : ℚ) := by
    split_ifs
    exacts [⟨5, by norm_num⟩, ⟨0, by norm_num⟩]
  have e4 : ∃ n : ℤ, 0 ≤ n ∧
      (if dictGetNum features "is_disposable_email" 0 = 1 then (25:ℚ) else 0) =
        (n : ℚ) := by
    split_ifs
    exacts [⟨25, by norm_num⟩, ⟨0, by norm_num⟩]
  have e5 : ∃ n : ℤ, 0 ≤ n ∧
      (if dictGetNum features "amount_rounded" 0 = 1 then (10:ℚ) else 0) =
        (n : ℚ) := by
    split_ifs
    exacts [⟨10, by norm_num⟩, ⟨0, by norm_num⟩]
  have e6 : ∃ n : ℤ, 0 ≤ n ∧
      (if 10 < dictGetNum features "velocity_customer_tx_count_24h" 0 then (20:ℚ)
       else if 5 < dictGetNum features "velocity_customer_tx_count_24h" 0 then 10
       else 0) = (n : ℚ) := by
    split_ifs
    exacts [⟨20, by norm_num⟩, ⟨10, by norm_num⟩, ⟨0, by norm_num⟩]
  obtain ⟨n1, hn1, h1⟩ := e1
  obtain ⟨n2, hn2, h2⟩ := e2
  obtain ⟨n3, hn3, h3⟩ := e3
  obtain ⟨n4, hn4, h4⟩ := e4
  obtain ⟨n5, hn5, h5⟩ := e5
  obtain ⟨n6, hn6, h6⟩ := e6
  refine ⟨min (n1 + n2 + n3 + n4 + n5 + n6) 100, ?_, ?_, ?_⟩
  · exact le_min (by omega) (by omega)
  · exact min_le_right _ _
  · rw [h1, h2, h3, h4, h5, h6]
    push_cast
    rfl

/-- C5: whenever the model file is missing or fails to load, or a
prediction raises, `predict` returns the rule-based fallback; the
fallback's probability is the claim's additive score capped at 100 and
divided by 100, with `model_used = false` and confidence fixed to LOW. -/
theorem model_manager_fallback (inference : Option (ℚ × ℤ))
    (features : FeatDict) :
    modelManagerPredict false inference features = fallbackPrediction features ∧
    modelManagerPredict true none features = fallbackPrediction features ∧
    (fallbackPrediction features).model_used = false ∧
    (fallbackPrediction features).confidence = "LOW" ∧
    (fallbackPrediction features).fraud_probability =
      specFallbackScore features / 100 ∧
    0 ≤ (fallbackPrediction features).fraud_probability ∧
    (fallbackPrediction features).fraud_probability ≤ 1 := by
  obtain ⟨n, hn0, hn100, hn⟩ := specFallbackScore_int features
  have hfp : (fallbackPrediction features).fraud_probability =
      round4 (specFallbackScore features / 100) := rfl
  have hval : (fallbackPrediction features).fraud_probability =
      specFallbackScore features / 100 := by
    rw [hfp, hn, round4_int_div100]
  refine ⟨rfl, rfl, rfl, rfl, hval, ?_, ?_⟩
  · rw [hval, hn]
    positivity
  · rw [hval, hn]
    rw [div_le_one (by norm_num)]
    exact_mod_cast hn100

/-! ### C6: fail-open rate limiting -/

/-- C6: a KV-store error inside `check_rate_limit` yields
`(allowed = true, remaining = limit)`, and an exception inside the
rate-limit middleware lets the request proceed to the handler; with a
failing KV store the handler's response is returned (with headers
attached) rather than a 429. -/
theorem rate_limiter_fail_open (limit window t : ℕ) (k : ApiKeyRecord)
    (kv : Except Unit (Finset ℕ)) (resp : HttpResponse) :
    (checkRateLimit limit window (Except.error ()) t).1 = (true, limit) ∧
    rateLimitDispatch (some k) true kv t resp = resp ∧
    (rateLimitDispatch (some k) false (Except.error ()) t resp).status =
      resp.status := by
  exact ⟨rfl, rfl, rfl⟩

/-! ### C7: rate-limit monotonicity within one window -/

/-- Within one window nothing is evicted by `zremrangebyscore`, the
sorted set only grows, and the remaining counts of allowed checks are
bounded by the state's cardinality and non-increasing. -/
lemma rlRun_allowed_monotone (limit window t0 : ℕ) :
    ∀ (ts : List ℕ) (s : Finset ℕ),
      (∀ t ∈ ts, t0 ≤ t ∧ t < t0 + window) →
      (∀ x ∈ s, t0 ≤ x) →
      (∀ r ∈ allowedRemainings (rlRun limit window s ts),
        r + s.card + 1 ≤ limit) ∧
      List.Chain' (fun a b => b ≤ a)
        (allowedRemainings (rlRun limit window s ts))
  | [], s, _, _ => by simp [rlRun, allowedRemainings]
  | t :: ts, s, hts, hs => by
    have hkeep : s.filter (fun x => t < x + window) = s := by
      apply Finset.filter_true_of_mem
      intro x hx
      have h1 := hs x hx
      have h2 := (hts t (by simp)).2
      omega
    have htrest : ∀ u ∈ ts, t0 ≤ u ∧ u < t0 + window := by
      intro u hu
      exact hts u (by simp [hu])
    unfold rlRun rlStep
    rw [hkeep]
    by_cases hfull : limit ≤ s.card
    · rw [if_pos hfull]
      simp only [allowedRemainings, List.filterMap_cons, if_false,
        Bool.false_eq_true]
      exact rlRun_allowed_monotone limit window t0 ts s htrest hs
    · rw [if_neg hfull]
      have hs' : ∀ x ∈ insert t s, t0 ≤ x := by
        intro x hx
        rcases Finset.mem_insert.mp hx with rfl | hx
        · exact (hts x (by simp)).1
        · exact hs x hx
      obtain ⟨ih_bound, ih_chain⟩ :=
        rlRun_allowed_monotone limit window t0 ts (insert t s) htrest hs'
      have hcard : s.card ≤ (insert t s).card :=
        Finset.card_le_card (Finset.subset_insert t s)
      simp only [allowedRemainings, List.filterMap_cons, if_pos]
      constructor
      · intro r hr
        rcases List.mem_cons.mp hr with rfl | hr
        · omega
        · have := ih_bound r hr
          omega
      · rw [List.chain'_cons']
        refine ⟨?_, ih_chain⟩
        intro y hy
        have hybound := ih_bound y (List.mem_of_mem_head? hy)
        omega

/-- One middleware dispatch per request time, threading the Redis state,
collecting the responses the clients see (rate_limit_middleware.py lines
84-136: allowed requests get the handler response plus
`X-RateLimit-Remaining`; denied ones get a 429). -/
def dispatchRun (rateLimit : ℕ) (handlerResp : HttpResponse)
    (kv : Except Unit (Finset ℕ)) : List ℕ → List HttpResponse
  | [] => []
  | t :: ts =>
    let checked := checkRateLimit rateLimit 60 kv t
    (if checked.1.1 then
      { handlerResp with
        rlLimitHeader := some rateLimit
        rlRemainingHeader := some checked.1.2 }
     else
      { status := 429
        rlLimitHeader := some rateLimit
        rlRemainingHeader := some 0 }) :: dispatchRun rateLimit handlerResp checked.2 ts

/-- The `X-RateLimit-Remaining` headers of the successful (status-200)
responses. -/
def successRemainingHeaders (rs : List HttpResponse) : List (Option ℕ) :=
  (rs.filter (fun r => r.status == 200)).map (·.rlRemainingHeader)

lemma dispatchRun_headers (rateLimit : ℕ) (handlerResp : HttpResponse)
    (hok : handlerResp.status = 200) :
    ∀ (ts : List ℕ) (s : Finset ℕ),
      successRemainingHeaders (dispatchRun rateLimit handlerResp (.ok s) ts) =
        (allowedRemainings (rlRun rateLimit 60 s ts)).map some
  | [], s => by simp [dispatchRun, rlRun, allowedRemainings,
      successRemainingHeaders]
  | t :: ts, s => by
    rcases h : rlStep rateLimit 60 s t with ⟨⟨allowed, rem⟩, s'⟩
    have hck : checkRateLimit rateLimit 60 (Except.ok s) t =
        ((allowed, rem), Except.ok s') := by
      unfold checkRateLimit
      dsimp only
      rw [h]
    have ih := dispatchRun_headers rateLimit handlerResp hok ts s'
    unfold successRemainingHeaders allowedRemainings at ih ⊢
    unfold dispatchRun rlRun
    rw [hck, h]
    cases allowed with
    | false =>
      rw [List.filter_cons_of_neg (by simp)]
      simpa using ih
    | true =>
      rw [List.filter_cons_of_pos (by simp [hok])]
      simpa using ih

/-- C7: within one 60-second window, across a sequence of requests by the
same key starting from a fresh counter, the `X-RateLimit-Remaining`
values attached to the successful responses form a non-increasing
sequence. -/
theorem rate_limit_remaining_monotone (rateLimit t0 : ℕ) (ts : List ℕ)
    (handlerResp : HttpResponse) (hok : handlerResp.status = 200)
    (hwin : ∀ t ∈ ts, t0 ≤ t ∧ t < t0 + 60) :
    ∃ rems : List ℕ,
      successRemainingHeaders
        (dispatchRun rateLimit handlerResp (Except.ok ∅) ts) =
        rems.map some ∧
      List.Chain' (fun a b => b ≤ a) rems := by
  refine ⟨allowedRemainings (rlRun rateLimit 60 ∅ ts), ?_, ?_⟩
  · exact dispatchRun_headers rateLimit handlerResp hok ts ∅
  · exact (rlRun_allowed_monotone rateLimit 60 t0 ts ∅ hwin (by simp)).2

def sampleOkResponse : HttpResponse := ⟨200, none, none⟩

/-- Witness for C7 with limit 3 and four requests inside one window. -/
theorem rate_limit_remaining_monotone_witness :
    ∃ rems : List ℕ,
      successRemainingHeaders
        (dispatchRun 3 sampleOkResponse (Except.ok ∅) [100, 100, 130, 150]) =
        rems.map some ∧
      List.Chain' (fun a b => b ≤ a) rems :=
  rate_limit_remaining_monotone 3 100 [100, 100, 130, 150]
    sampleOkResponse rfl (by decide)

/-! ### C8: cache get-after-set -/

/-- Invariant after `set(k, v)` with expiry `e`: every L1 entry under `k`
holds `v`, and L2 maps `k` to `(v, e)`. -/
def cacheInv {V : Type} (k : String) (v : V) (e : ℕ) (st : CacheState V) :
    Prop :=
  (∀ p ∈ st.l1, p.1 = k → p.2 = v) ∧ st.l2 k = some (v, e)

lemma mem_dictAssign {V : Type} {l : List (String × V)} {k : String} {v : V}
    {p : String × V} (hp : p ∈ dictAssign l k v) : p = (k, v) ∨ p ∈ l := by
  unfold dictAssign at hp
  split at hp
  · obtain ⟨q, hq, hfq⟩ := List.mem_map.mp hp
    by_cases hqk : q.1 == k
    · rw [if_pos hqk] at hfq
      exact .inl hfq.symm
    · rw [if_neg hqk] at hfq
      exact .inr (hfq ▸ hq)
  · rcases List.mem_append.mp hp with h | h
    · exact .inr h
    · exact .inl (List.mem_singleton.mp h)

lemma dictAssign_self_val {V : Type} (l : List (String × V)) (k : String)
    (v : V) : ∀ p ∈ dictAssign l k v, p.1 = k → p.2 = v := by
  intro p hp hpk
  unfold dictAssign at hp
  by_cases hany : (l.any fun q => q.1 == k) = true
  · rw [if_pos hany] at hp
    obtain ⟨q, hq, hfq⟩ := List.mem_map.mp hp
    by_cases hqk : (q.1 == k) = true
    · rw [if_pos hqk] at hfq
      rw [← hfq]
    · rw [if_neg hqk] at hfq
      rw [← hfq] at hpk
      exact absurd (beq_iff_eq.mpr hpk) hqk
  · rw [if_neg hany] at hp
    rcases List.mem_append.mp hp with h | h
    · refine absurd ?_ hany
      rw [List.any_eq_true]
      exact ⟨p, h, beq_iff_eq.mpr hpk⟩
    · rw [List.mem_singleton.mp h]

lemma setL1_l1_mem {V : Type} {st : CacheState V} {k' : String} {v' : V}
    {p : String × V} (hp : p ∈ (setL1 st k' v').l1) :
    p = (k', v') ∨ p ∈ st.l1 := by
  unfold setL1 at hp
  rcases mem_dictAssign hp with h | h
  · exact .inl h
  · right
    split at h
    · exact List.drop_subset 1 st.l1 h
    · exact h

lemma cacheInv_set {V : Type} (st : CacheState V) (k : String) (v : V)
    (ttl now : ℕ) : cacheInv k v (now + ttl) (cacheSet st k v ttl now) := by
  constructor
  · intro p hp hpk
    unfold cacheSet at hp
    exact dictAssign_self_val _ k v p hp hpk
  · unfold cacheSet
    simp

lemma cacheInv_set_other {V : Type} {k : String} {v : V} {e : ℕ}
    {st : CacheState V} (h : cacheInv k v e st) {k' : String} (hne : k' ≠ k)
    (v' : V) (ttl now : ℕ) :
    cacheInv k v e (cacheSet st k' v' ttl now) := by
  constructor
  · intro p hp hpk
    unfold cacheSet at hp
    have hp' : p ∈ (setL1 st k' v').l1 := hp
    rcases setL1_l1_mem hp' with rfl | hmem
    · exact absurd hpk hne
    · exact h.1 p hmem hpk
  · unfold cacheSet
    simp only
    rw [if_neg (fun hk => hne hk.symm)]
    exact h.2

lemma cacheInv_applySets {V : Type} {k : String} {v : V} {e : ℕ} :
    ∀ (ops : List (String × V × ℕ × ℕ)) (st : CacheState V),
      (∀ op ∈ ops, op.1 ≠ k) → cacheInv k v e st →
      cacheInv k v e (applySets st ops)
  | [], _, _, h => h
  | (k', v', ttl, now) :: ops, st, hops, h => by
    unfold applySets
    exact cacheInv_applySets ops _ (fun op hop => hops op (by simp [hop]))
      (cacheInv_set_other h (hops (k', v', ttl, now) (by simp)) v' ttl now)

lemma cacheInv_get {V : Type} {k : String} {v : V} {e : ℕ}
    {st : CacheState V} (h : cacheInv k v e st) {now : ℕ} (hnow : now < e) :
    (cacheGet st k now).1 = some v := by
  unfold cacheGet
  cases hl : l1Lookup st.l1 k with
  | some w =>
    have hw : w = v := by
      unfold l1Lookup at hl
      obtain ⟨p, hfind, hpw⟩ := Option.map_eq_some'.mp hl
      have hpmem := List.mem_of_find?_eq_some hfind
      have hpk := List.find?_some hfind
      rw [← hpw]
      exact h.1 p hpmem (by simpa using hpk)
    rw [hw]
  | none =>
    rw [h.2]
    simp [hnow]

/-- C8: a `get(k)` after `set(k, v)` and within the entry's TTL returns
`v`, from either layer — regardless of intervening `set`s to other keys
(which may evict `k` from L1, in which case Redis serves it). -/
theorem cache_get_after_set {V : Type} (st : CacheState V) (k : String)
    (v : V) (ttl t0 : ℕ) (ops : List (String × V × ℕ × ℕ)) (t : ℕ)
    (hops : ∀ op ∈ ops, op.1 ≠ k) (ht : t < t0 + ttl) :
    (cacheGet (applySets (cacheSet st k v ttl t0) ops) k t).1 = some v :=
  cacheInv_get
    (cacheInv_applySets ops _ hops (cacheInv_set st k v ttl t0)) ht

def sampleCache : CacheState ℕ := ⟨[], 2, fun _ => none⟩

/-- Witness for C8: two intervening sets evict the key from the
two-entry L1; the L2 layer still serves it. -/
theorem cache_get_after_set_witness :
    (cacheGet (applySets (cacheSet sampleCache "velocity:a@b.com:16" 42 60 1000)
        [("k1", 7, 60, 1001), ("k2", 8, 60, 1002)]) "velocity:a@b.com:16"
      1030).1 = some 42 :=
  cache_get_after_set sampleCache "velocity:a@b.com:16" 42 60 1000
    [("k1", 7, 60, 1001), ("k2", 8, 60, 1002)] 1030 (by decide) (by decide)

/-! ### C9: the is_month_end feature -/

/-- The correct length of month `m` of year `y` (spec-side reference:
"the month's length computed correctly for every month, including
February in leap years"). -/
def monthLength (y m : ℕ) : ℕ :=
  match m with
  | 1 => 31
  | 2 => if pythonLeap y then 29 else 28
  | 3 => 31
  | 4 => 30
  | 5 => 31
  | 6 => 30
  | 7 => 31
  | 8 => 31
  | 9 => 30
  | 10 => 31
  | 11 => 30
  | 12 => 31
  | _ => 0

set_option maxHeartbeats 2000000 in
/-- The source's datetime-subtraction derivation of `last_day` agrees
with the correct month length, for every month and year — February in
leap years included. -/
lemma lastDayOfMonth_eq_monthLength (y m : ℕ) (hy : 1 ≤ y) (hm1 : 1 ≤ m)
    (hm2 : m ≤ 12) : lastDayOfMonth y m = monthLength y m := by
  rcases Nat.eq_or_lt_of_le hm2 with rfl | hlt
  · rw [lastDayOfMonth, if_pos rfl]
    have h31 : monthLength y 12 = 31 := rfl
    rw [h31]
    simp only [toOrdinal, daysBeforeMonth, leapsBefore, pythonLeap]
    split_ifs with h <;>
      (simp only [Bool.and_eq_true, beq_iff_eq, Bool.or_eq_true,
         bne_iff_ne] at h;
       omega)
  · have hm11 : m ≤ 11 := by omega
    interval_cases m <;>
      norm_num [lastDayOfMonth, monthLength, toOrdinal, daysBeforeMonth,
        leapsBefore, pythonLeap] <;>
      first
        | omega
        | (split_ifs <;> omega)

/-- C9: `is_month_end` is 1 exactly on the last three days of the month,
for every valid date — the month's length (including leap-year February)
being computed correctly by the source's datetime derivation. -/
theorem is_month_end_iff_last_three_days (y m d hr : ℕ) (hy : 1 ≤ y)
    (hm1 : 1 ≤ m) (hm2 : m ≤ 12) (hd1 : 1 ≤ d) (hd2 : d ≤ monthLength y m) :
    dictGetNum (timeFeatures ⟨y, m, d, hr⟩) "is_month_end" 0 = 1 ↔
      (d = monthLength y m - 2 ∨ d = monthLength y m - 1 ∨
       d = monthLength y m) := by
  have hL := lastDayOfMonth_eq_monthLength y m hy hm1 hm2
  have hml : 28 ≤ monthLength y m := by
    interval_cases m <;>
      norm_num [monthLength, pythonLeap] <;>
      first
        | omega
        | (split_ifs <;> omega)
  have hfeat : dictGetNum (timeFeatures ⟨y, m, d, hr⟩) "is_month_end" 0 =
      if (lastDayOfMonth y m : ℤ) - 2 ≤ (d : ℤ) then 1 else 0 := rfl
  rw [hfeat, hL]
  by_cases h : (monthLength y m : ℤ) - 2 ≤ (d : ℤ)
  · rw [if_pos h]
    have hin : d = monthLength y m - 2 ∨ d = monthLength y m - 1 ∨
        d = monthLength y m := by omega
    simp [hin]
  · rw [if_neg h]
    have hout : ¬(d = monthLength y m - 2 ∨ d = monthLength y m - 1 ∨
        d = monthLength y m) := by omega
    constructor
    · intro h01
      exact absurd h01 (by norm_num)
    · intro hcon
      exact absurd hcon hout

/-- Witness for C9 at 27 February 2024 (a leap year): day 27 of 29 is
among the last three days. -/
theorem is_month_end_iff_last_three_days_witness :
    dictGetNum (timeFeatures ⟨2024, 2, 27, 10⟩) "is_month_end" 0 = 1 ↔
      (27 = monthLength 2024 2 - 2 ∨ 27 = monthLength 2024 2 - 1 ∨
       27 = monthLength 2024 2) :=
  is_month_end_iff_last_three_days 2024 2 27 10 (by norm_num) (by norm_num)
    (by norm_num) (by norm_num) (by norm_num [monthLength, pythonLeap])

end Fraud
